import Mathlib

/-!
Verification of the Twitch shoutout service (`src/index.js`, main variant at
lines 1–308, plus the "enhanced" variant in `src/unnamed/part_000`).

The embedding models the pure decision logic of the service: username
cleaning/validation, the token cache (`getTwitchToken`), the fail-soft
upstream lookups, the category resolver (`getLastPlayedGame`) and the
message composer of the `/` route handler.  Network effects are modelled by
passing the (already parsed or failed) upstream responses as explicit
parameters; JavaScript `null`/`undefined` become `Option.none`, a JS string
field that may be absent or empty is a `String` whose falsiness is `= ""`,
and the JS number `NaN` (which arises for `tokenExpiry` when `expires_in`
is missing) is `Option.none` in an `Option Int`.
-/

namespace Shoutout

/-- Character-list prefix test, `pat` against `s` (JS `String.prototype.startsWith`
at a position, used to build substring search). -/
def charsPrefix : List Char → List Char → Bool
  | [], _ => true
  | _ :: _, [] => false
  | a :: as, b :: bs => a == b && charsPrefix as bs

/-- Substring search on character lists: does `pat` occur inside `s`?
Models JS `String.prototype.includes`. -/
def charsContain : List Char → List Char → Bool
  | [], pat => charsPrefix pat []
  | c :: rest, pat => charsPrefix pat (c :: rest) || charsContain rest pat

/-- `strContains s pat` models JS `s.includes(pat)`. -/
def strContains (s pat : String) : Bool :=
  charsContain s.data pat.data

/-- ASCII lower-casing, models JS `toLowerCase()` on the ASCII titles the
claims are about. -/
def lowerStr (s : String) : String :=
  ⟨s.data.map Char.toLower⟩

/-- Whitespace trim on both ends, models JS `String.prototype.trim`. -/
def trimChars (cs : List Char) : List Char :=
  ((cs.dropWhile Char.isWhitespace).reverse.dropWhile Char.isWhitespace).reverse

/-- `index.js` lines 198–201: trim the query value, then strip one leading `@`. -/
def cleanUsername (raw : String) : String :=
  match trimChars raw.data with
  | '@' :: rest => ⟨rest⟩
  | t => ⟨t⟩

/-- One character class of the validation regex `[a-zA-Z0-9_]`. -/
def isUsernameChar (c : Char) : Bool :=
  ('a' ≤ c && c ≤ 'z') || ('A' ≤ c && c ≤ 'Z') || ('0' ≤ c && c ≤ '9') || c == '_'

/-- `index.js` line 208: the test `/^[a-zA-Z0-9_]{4,25}$/.test(username)`. -/
def usernameRegexOk (s : String) : Bool :=
  4 ≤ s.data.length && s.data.length ≤ 25 && s.data.all isUsernameChar

/-! ### Data model (spec §3, shapes as used by `index.js`) -/

/-- Live stream snapshot as consumed by the resolver (`/helix/streams` row). -/
structure StreamSnapshot where
  game_name : String
  title : String
deriving DecidableEq, Repr

/-- Persisted channel info (`/helix/channels` row). -/
structure ChannelInfo where
  game_name : String
  title : String
deriving DecidableEq, Repr

/-- Archived broadcast record (`/helix/videos` row); `type` is the video
type string ("archive" for the records the scan accepts). -/
structure Video where
  type : String
  duration : String
  title : String
deriving DecidableEq, Repr

/-- User row from `/helix/users`. -/
structure User where
  id : String
  login : String
deriving DecidableEq, Repr

/-- The three resolver inputs after the fail-soft upstream layer:
`getCurrentStream`, `getChannelInfo` and `getRecentVideos` each already
converted any failure to `none` / `[]`. -/
structure Upstream where
  streamResp : Option StreamSnapshot
  channelResp : Option ChannelInfo
  videosResp : List Video
deriving DecidableEq, Repr

/-- Which upstream lookups `getLastPlayedGame` performed. -/
structure Calls where
  stream : Bool
  channel : Bool
  videos : Bool
deriving DecidableEq, Repr

/-! ### ISO-8601 duration regex, `index.js` line 161
`video.duration.match(/PT(?:(\d+)H)?(?:(\d+)M)?(?:(\d+)S)?/)`. -/

/-- Digit-string numeric value (JS `parseInt` on a nonempty digit group). -/
def digitsToNat (cs : List Char) : Nat :=
  cs.foldl (fun n c => n * 10 + (c.toNat - '0'.toNat)) 0

/-- One optional regex group `(?:(\d+)X)?`: the maximal digit run, accepted
only when a nonempty run is immediately followed by the marker `X`
(backtracking to a shorter run cannot help, since the next character would
then be a digit, never the marker). -/
def parseComponent (cs : List Char) (marker : Char) : Option Nat × List Char :=
  let digits := cs.takeWhile Char.isDigit
  let rest := cs.dropWhile Char.isDigit
  if digits ≠ [] ∧ rest.head? = some marker then
    (some (digitsToNat digits), rest.tail)
  else
    (none, cs)

/-- The regex scans for the first literal occurrence of `PT`; everything
after it is optional, so the match succeeds exactly at the first `PT`. -/
def findPT : List Char → Option (List Char)
  | [] => none
  | 'P' :: 'T' :: rest => some rest
  | _ :: rest => findPT rest

/-- Result of the duration regex: `(hours, minutes, seconds)` with absent
groups defaulted to `0` (JS `parseInt(durationMatch[i] || '0')`);
`none` when the string has no `PT` (then `durationMatch` is `null`). -/
def durationMatch (d : String) : Option (Nat × Nat × Nat) :=
  match findPT d.data with
  | none => none
  | some rest =>
    let (h, r1) := parseComponent rest 'H'
    let (m, r2) := parseComponent r1 'M'
    let (s, _) := parseComponent r2 'S'
    some (h.getD 0, m.getD 0, s.getD 0)

/-- `index.js` line 173: the denylist of non-gameplay keywords. -/
def skipWords : List String :=
  ["react", "irl", "chat", "talk", "podcast", "interview", "music"]

/-- `index.js` line 174: `skipWords.some(word => title.includes(word))` on the
lower-cased title. -/
def hasSkipWord (title : String) : Bool :=
  skipWords.any (fun w => strContains (lowerStr title) w)

/-- `index.js` lines 158–184: the body of the archived-video loop for one
record: `some "games"` when the record decides the scan, `none` when it is
skipped and the loop continues. -/
def videoStep (v : Video) : Option String :=
  if v.type = "archive" ∧ v.duration ≠ "" then
    match durationMatch v.duration with
    | some (h, m, _) =>
      if h * 60 + m > 30 then
        if hasSkipWord v.title then none else some "games"
      else none
    | none => none
  else none

/-- The `for (const video of videos)` loop: first record that decides wins. -/
def scanVideos : List Video → Option String
  | [] => none
  | v :: rest =>
    match videoStep v with
    | some g => some g
    | none => scanVideos rest

/-- `index.js` lines 150–186: resolver continuation after the live-stream
check failed — channel info, then the archived-video scan. -/
def resolverAfterStream (u : Upstream) : Option String × Calls :=
  match u.channelResp with
  | some c =>
    if c.game_name ≠ "" ∧ c.game_name ≠ "Just Chatting" then
      (some c.game_name, ⟨true, true, false⟩)
    else (scanVideos u.videosResp, ⟨true, true, true⟩)
  | none => (scanVideos u.videosResp, ⟨true, true, true⟩)

/-- `index.js` lines 142–191, `getLastPlayedGame`: the prioritized fallback
chain, returning the resolved category string (or `none`) together with the
set of upstream lookups performed. -/
def getLastPlayedGame (u : Upstream) : Option String × Calls :=
  match u.streamResp with
  | some s =>
    if s.game_name ≠ "" ∧ s.game_name ≠ "Just Chatting" then
      (some s.game_name, ⟨true, false, false⟩)
    else resolverAfterStream u
  | none => resolverAfterStream u

/-! ### Message composer and route handler, `index.js` lines 194–242 -/

/-- `index.js` line 204. -/
def missingUserMsg : String :=
  "Please provide a username with ?user=USERNAME"

/-- `index.js` line 209. -/
def invalidFormatMsg : String :=
  "Invalid username format. Twitch usernames must be 4-25 characters and contain only letters, numbers, and underscores."

/-- `index.js` line 216. -/
def notFoundMsg (u : String) : String :=
  "User \"" ++ u ++ "\" not found on Twitch. Please check the username and try again."

/-- The fixed-format channel link interpolated into every shoutout sentence. -/
def channelUrl (u : String) : String :=
  "https://twitch.tv/" ++ u

/-- `index.js` line 226: specific-game sentence. -/
def specificMsg (u g : String) : String :=
  "Check out " ++ u ++ ", they are playing " ++ g ++ " at " ++ channelUrl u ++ "!"

/-- `index.js` line 229: generic gaming sentence. -/
def genericGamingMsg (u : String) : String :=
  "Check out " ++ u ++ ", great gaming content at " ++ channelUrl u ++ "!"

/-- `index.js` lines 232 and 240: the no-game sentence, also the outer-catch
fallback sentence. -/
def plainMsg (u : String) : String :=
  "Check out " ++ u ++ " at " ++ channelUrl u ++ "!"

/-- `index.js` lines 222–233: `if (game && game !== 'games') … else if
(game === 'games') … else …`. -/
def composeMessage (username : String) (game : Option String) : String :=
  if game.getD "" ≠ "" ∧ game.getD "" ≠ "games" then
    specificMsg username (game.getD "")
  else if game = some "games" then
    genericGamingMsg username
  else
    plainMsg username

/-- The spec's tagged `ResolvedCategory` (spec §3). -/
inductive ResolvedCategory where
  | Specific (name : String)
  | Generic
  | Unknown
deriving DecidableEq, Repr

/-- How the code's in-band string encoding is read back as a tagged
`ResolvedCategory`, exactly mirroring the composer's branching on
`game && game !== 'games'` / `game === 'games'` / otherwise. -/
def toResolved (game : Option String) : ResolvedCategory :=
  if game.getD "" ≠ "" ∧ game.getD "" ≠ "games" then
    ResolvedCategory.Specific (game.getD "")
  else if game = some "games" then
    ResolvedCategory.Generic
  else
    ResolvedCategory.Unknown

/-- `index.js` lines 194–242: the `/` route handler over the fail-soft
results of the upstream lookups (`userResp` is what `getTwitchUser`
returned, `up` what the three resolver lookups would return). -/
def resolveShoutout (userResp : Option User) (up : Upstream) (raw : String) : String :=
  let username := cleanUsername raw
  if username = "" then missingUserMsg
  else if usernameRegexOk username = false then invalidFormatMsg
  else
    match userResp with
    | none => notFoundMsg username
    | some _ => composeMessage username (getLastPlayedGame up).1

/-! ### Token cache, `index.js` lines 7–55 -/

/-- The process-wide mutable cache `twitchToken` / `tokenExpiry`.
`token = none` models both the initial `null` and an `undefined` written by
a field-less response; `expiry = none` models the `NaN` that
`Date.now() + undefined * 1000 - 60000` produces. Initial state is
`⟨none, some 0⟩`. -/
structure TokenCache where
  token : Option String
  expiry : Option Int
deriving DecidableEq, Repr

/-- Outcome of the credential-exchange POST to `id.twitch.tv`:
a transport error (`req.on('error')`), a body `JSON.parse` throw, or a
parsed JSON object with possibly-missing `access_token` / `expires_in`. -/
inductive TokenResponse where
  | netError
  | parseError
  | parsed (access_token : Option String) (expires_in : Option Int)
deriving DecidableEq, Repr

/-- `index.js` line 15: `twitchToken && Date.now() < tokenExpiry`
(an `undefined`/`null`/empty token is falsy; `now < NaN` is false). -/
def cacheValid (c : TokenCache) (now : Int) : Bool :=
  (match c.token with | some t => t ≠ "" | none => false) &&
  (match c.expiry with | some e => now < e | none => false)

/-- `index.js` lines 14–55, `getTwitchToken`: returns the settled promise
value (`Except.error` for a throw/reject) and the cache afterwards. -/
def getTwitchToken (clientId clientSecret : String) (now : Int)
    (resp : TokenResponse) (c : TokenCache) :
    Except String (Option String) × TokenCache :=
  if cacheValid c now then
    (Except.ok c.token, c)
  else if clientId = "" ∨ clientSecret = "" then
    (Except.error "Twitch credentials not configured", c)
  else
    match resp with
    | TokenResponse.netError => (Except.error "network error", c)
    | TokenResponse.parseError => (Except.error "JSON parse error", c)
    | TokenResponse.parsed tok exp =>
      (Except.ok tok, ⟨tok, exp.map (fun e => now + e * 1000 - 60000)⟩)

/-- The per-lookup fail-soft wrapper (`getTwitchUser`, `getCurrentStream`,
`getChannelInfo`, `getRecentVideos`, `index.js` lines 91–128): a token
failure is caught and converted to the lookup's empty value `failVal`;
with a token, the lookup yields the modelled fail-soft response `x`. -/
def fetchWithToken {α : Type} (clientId clientSecret : String) (now : Int)
    (resp : TokenResponse) (c : TokenCache) (failVal x : α) : α × TokenCache :=
  let r := getTwitchToken clientId clientSecret now resp c
  match r.1 with
  | Except.error _ => (failVal, r.2)
  | Except.ok _ => (x, r.2)

/-- The two configuration secrets (`TWITCH_CLIENT_ID`, `TWITCH_CLIENT_SECRET`,
`index.js` lines 7–8; `''` when the environment variable is unset). -/
structure Config where
  clientId : String
  clientSecret : String
deriving DecidableEq, Repr

/-- The fail-soft payloads the four authenticated lookups would produce
when performed with a token. -/
structure ApiData where
  userResp : Option User
  streamResp : Option StreamSnapshot
  channelResp : Option ChannelInfo
  videosResp : List Video
deriving DecidableEq, Repr

/-- The `/` route handler including the token layer: each lookup resolves a
token against the evolving cache (`r1`–`r4` are the per-refresh network
outcomes) and fails soft.  The resolver inspects a later lookup's result
only when the earlier ones do not decide, so computing the three resolver
inputs before applying `getLastPlayedGame` returns the same message as the
source's short-circuiting call order. -/
def handleShoutout (cfg : Config) (now : Int)
    (r1 r2 r3 r4 : TokenResponse) (api : ApiData) (cache : TokenCache)
    (raw : String) : String :=
  let username := cleanUsername raw
  if username = "" then missingUserMsg
  else if usernameRegexOk username = false then invalidFormatMsg
  else
    let ur := fetchWithToken cfg.clientId cfg.clientSecret now r1 cache none api.userResp
    match ur.1 with
    | none => notFoundMsg username
    | some _ =>
      let sr := fetchWithToken cfg.clientId cfg.clientSecret now r2 ur.2 none api.streamResp
      let cr := fetchWithToken cfg.clientId cfg.clientSecret now r3 sr.2 none api.channelResp
      let vr := fetchWithToken cfg.clientId cfg.clientSecret now r4 cr.2 [] api.videosResp
      composeMessage username (getLastPlayedGame ⟨sr.1, cr.1, vr.1⟩).1

/-! ### Concurrent token refresh, `index.js` lines 14–55 under the event loop

A caller of `getTwitchToken` runs synchronously from the cache check through
`https.request` (the `Promise` executor runs synchronously), so checking the
cache and issuing the network request form one atomic segment; the cache
write happens later, in the response's `end` callback.  Concurrency is
modelled as an explicit interleaving of these two kinds of atomic events. -/

/-- One atomic event-loop segment of a `getTwitchToken` call. -/
inductive TokenEvent where
  /-- A caller enters `getTwitchToken`: it checks the cache and, if the
  cache is invalid and credentials are configured, issues a refresh
  request. -/
  | start
  /-- An in-flight refresh's response arrives and its `end` callback runs. -/
  | complete (resp : TokenResponse)
deriving DecidableEq, Repr

/-- Shared state of the interleaving: the cache plus the number of
credential-exchange network requests issued so far. -/
structure ConcState where
  cache : TokenCache
  requests : Nat
deriving DecidableEq, Repr

/-- Effect of one atomic segment on the shared state. -/
def stepTokenEvent (clientId clientSecret : String) (now : Int)
    (s : ConcState) : TokenEvent → ConcState
  | TokenEvent.start =>
    if cacheValid s.cache now then s
    else if clientId = "" ∨ clientSecret = "" then s
    else { s with requests := s.requests + 1 }
  | TokenEvent.complete resp =>
    match resp with
    | TokenResponse.netError => s
    | TokenResponse.parseError => s
    | TokenResponse.parsed tok exp =>
      { s with cache := ⟨tok, exp.map (fun e => now + e * 1000 - 60000)⟩ }

/-- Run an interleaving of `getTwitchToken` segments. -/
def runTokenEvents (clientId clientSecret : String) (now : Int)
    (evs : List TokenEvent) (s : ConcState) : ConcState :=
  evs.foldl (stepTokenEvent clientId clientSecret now) s

/-! ### The "enhanced" variant, `src/unnamed/part_000` lines 236–249 -/

/-- `part_000` line 241: the allowlist of known game titles. -/
def commonGames : List String :=
  ["Valorant", "League of Legends", "Fortnite", "Minecraft", "Among Us",
   "Call of Duty", "Apex Legends", "Counter-Strike", "Overwatch",
   "World of Warcraft", "Rocket League", "Fall Guys", "GTA",
   "Dead by Daylight", "Escape from Tarkov"]

/-- `part_000` lines 242–247: first allowlisted game whose lower-cased name
occurs in the lower-cased video title. -/
def findCommonGame (title : String) : Option String :=
  commonGames.find? (fun g => strContains (lowerStr title) (lowerStr g))

/-! ### Helper lemmas -/

theorem charsPrefix_self_append (l t : List Char) : charsPrefix l (l ++ t) = true := by
  induction l with
  | nil => rfl
  | cons c cs ih => simp [charsPrefix, ih]

theorem charsContain_nil_pat (s : List Char) : charsContain s [] = true := by
  cases s with
  | nil => rfl
  | cons c cs => simp [charsContain, charsPrefix]

theorem charsContain_append (p pat t : List Char) :
    charsContain (p ++ (pat ++ t)) pat = true := by
  induction p with
  | nil =>
    cases pat with
    | nil => simpa using charsContain_nil_pat t
    | cons c cs =>
      have h := charsPrefix_self_append (c :: cs) t
      simp only [List.cons_append] at h
      simp [charsContain, h]
  | cons c cs ih => simp [charsContain, ih]

theorem strContains_of_split (s pat : String) (p t : List Char)
    (h : s.data = p ++ (pat.data ++ t)) : strContains s pat = true := by
  unfold strContains
  rw [h]
  exact charsContain_append p pat.data t

theorem specificMsg_contains_url (u g : String) :
    strContains (specificMsg u g) (channelUrl u) = true := by
  apply strContains_of_split _ _
    ("Check out ".data ++ (u.data ++ (", they are playing ".data ++ (g.data ++ " at ".data)))) "!".data
  simp [specificMsg, channelUrl, String.data_append]

theorem genericGamingMsg_contains_url (u : String) :
    strContains (genericGamingMsg u) (channelUrl u) = true := by
  apply strContains_of_split _ _
    ("Check out ".data ++ (u.data ++ ", great gaming content at ".data)) "!".data
  simp [genericGamingMsg, channelUrl, String.data_append]

theorem plainMsg_contains_url (u : String) :
    strContains (plainMsg u) (channelUrl u) = true := by
  apply strContains_of_split _ _ ("Check out ".data ++ (u.data ++ " at ".data)) "!".data
  simp [plainMsg, channelUrl, String.data_append]

theorem composeMessage_contains_url (u : String) (g : Option String) :
    strContains (composeMessage u g) (channelUrl u) = true := by
  unfold composeMessage
  split
  · exact specificMsg_contains_url u _
  · split
    · exact genericGamingMsg_contains_url u
    · exact plainMsg_contains_url u

theorem specificMsg_ne_empty (u g : String) : specificMsg u g ≠ "" := by
  intro h
  have hlen := congrArg String.length h
  have h10 : ("Check out " : String).length = 10 := rfl
  simp [specificMsg, channelUrl, String.length_append] at hlen
  omega

theorem genericGamingMsg_ne_empty (u : String) : genericGamingMsg u ≠ "" := by
  intro h
  have hlen := congrArg String.length h
  have h10 : ("Check out " : String).length = 10 := rfl
  simp [genericGamingMsg, channelUrl, String.length_append] at hlen
  omega

theorem plainMsg_ne_empty (u : String) : plainMsg u ≠ "" := by
  intro h
  have hlen := congrArg String.length h
  have h10 : ("Check out " : String).length = 10 := rfl
  simp [plainMsg, channelUrl, String.length_append] at hlen
  omega

theorem composeMessage_ne_empty (u : String) (g : Option String) :
    composeMessage u g ≠ "" := by
  unfold composeMessage
  split
  · exact specificMsg_ne_empty u _
  · split
    · exact genericGamingMsg_ne_empty u
    · exact plainMsg_ne_empty u

theorem notFoundMsg_ne_empty (u : String) : notFoundMsg u ≠ "" := by
  intro h
  have hlen := congrArg String.length h
  have h6 : ("User \"" : String).length = 6 := rfl
  simp [notFoundMsg, String.length_append] at hlen
  omega

theorem usernameRegexOk_ne_empty (s : String) (h : usernameRegexOk s = true) :
    s ≠ "" := by
  intro he
  rw [he] at h
  exact absurd h (by decide)

/-- The generic gaming sentence is two characters longer than the specific
sentence for the category literally named `"games"`, so the two can never
coincide. -/
theorem genericGamingMsg_ne_specific_games (u : String) :
    genericGamingMsg u ≠ specificMsg u "games" := by
  intro h
  have hlen := congrArg String.length h
  have h1 : ("Check out " : String).length = 10 := rfl
  have h2 : (", great gaming content at " : String).length = 26 := rfl
  have h3 : (", they are playing " : String).length = 19 := rfl
  have h4 : ("games" : String).length = 5 := rfl
  have h5 : (" at " : String).length = 4 := rfl
  simp [genericGamingMsg, specificMsg, channelUrl, String.length_append] at hlen
  omega

theorem videoStep_none_or_games (v : Video) :
    videoStep v = none ∨ videoStep v = some "games" := by
  unfold videoStep
  split
  · split
    · split
      · split
        · exact Or.inl rfl
        · exact Or.inr rfl
      · exact Or.inl rfl
    · exact Or.inl rfl
  · exact Or.inl rfl

theorem scanVideos_none_or_games (vs : List Video) :
    scanVideos vs = none ∨ scanVideos vs = some "games" := by
  induction vs with
  | nil => exact Or.inl rfl
  | cons v rest ih =>
    unfold scanVideos
    rcases videoStep_none_or_games v with h | h <;> rw [h]
    · exact ih
    · exact Or.inr rfl

theorem durationMatch_some_ne_empty (d : String) (x : Nat × Nat × Nat)
    (hd : durationMatch d = some x) : d ≠ "" := by
  intro he
  rw [he] at hd
  rw [show durationMatch "" = none from rfl] at hd
  exact Option.noConfusion hd

/-! ### Claims -/

/-- C6: the archived-broadcast title-sniffing never fabricates a specific
game name.  In the main variant (`index.js` lines 168–184) the video scan
only ever produces the in-band Generic marker `"games"` (or nothing); in
the enhanced variant (`part_000` lines 236–249) a game name is produced
only when it is a member of the fixed allowlist `commonGames` whose
lower-cased name occurs in the lower-cased title. -/
theorem c6_no_fabricated_specific_game :
    (∀ vs : List Video, scanVideos vs = none ∨ scanVideos vs = some "games") ∧
    (∀ t g, findCommonGame t = some g →
      g ∈ commonGames ∧ strContains (lowerStr t) (lowerStr g) = true) := by
  refine ⟨scanVideos_none_or_games, fun t g h => ?_⟩
  unfold findCommonGame at h
  refine ⟨List.mem_of_find?_eq_some h, ?_⟩
  simpa using List.find?_some h

/-- Witness for C6 at a concrete title: the allowlist scan finds
"Valorant" in "Late night VALORANT grind", and indeed it is an allowlist
member occurring in the lower-cased title. -/
theorem c6_no_fabricated_specific_game_witness :
    "Valorant" ∈ commonGames ∧
    strContains (lowerStr "Late night VALORANT grind") (lowerStr "Valorant") = true :=
  c6_no_fabricated_specific_game.2 "Late night VALORANT grind" "Valorant" (by decide)

/-- C7: a record whose parsed duration is under the 30-minute threshold is
skipped regardless of title, and a record whose lower-cased title contains
a denylist keyword is skipped regardless of duration; a skipped record
never decides the scan, which continues with the remaining records
(`index.js` lines 157–184). -/
theorem c7_short_or_denylisted_record_skipped (v : Video) (rest : List Video)
    (h : (∃ hh mm ss, durationMatch v.duration = some (hh, mm, ss) ∧ hh * 60 + mm < 30) ∨
         hasSkipWord v.title = true) :
    videoStep v = none ∧ scanVideos (v :: rest) = scanVideos rest := by
  have hv : videoStep v = none := by
    rcases h with ⟨hh, mm, ss, hd, hlt⟩ | hskip
    · unfold videoStep
      split
      · rw [hd]
        have hgt : ¬ (hh * 60 + mm > 30) := by omega
        simp [hgt]
      · rfl
    · unfold videoStep
      split
      · split
        · split
          · simp [hskip]
          · rfl
        · rfl
      · rfl
  refine ⟨hv, ?_⟩
  show (match videoStep v with | some g => some g | none => scanVideos rest) = scanVideos rest
  rw [hv]

/-- Witness for C7: the 15-minute record "PT15M" (spec example) is skipped
even with a gameplay title. -/
theorem c7_short_or_denylisted_record_skipped_witness :
    ((∃ hh mm ss, durationMatch "PT15M" = some (hh, mm, ss) ∧ hh * 60 + mm < 30) ∨
      hasSkipWord "Elden Ring speedrun" = true) ∧
    (videoStep ⟨"archive", "PT15M", "Elden Ring speedrun"⟩ = none ∧
     scanVideos [⟨"archive", "PT15M", "Elden Ring speedrun"⟩] = scanVideos []) :=
  ⟨Or.inl ⟨0, 15, 0, by decide, by decide⟩,
   c7_short_or_denylisted_record_skipped ⟨"archive", "PT15M", "Elden Ring speedrun"⟩ []
     (Or.inl ⟨0, 15, 0, by decide, by decide⟩)⟩

/-- C10: the duration gate uses only `hours * 60 + minutes` and requires it
to be strictly greater than 30, so the seconds group never influences the
decision; `"PT30M"`, `"PT30M59S"` and the seconds-only `"PT3600S"` (which
parses to 0 total minutes) are all skipped (`index.js` lines 161–168). -/
theorem c10_duration_gate_ignores_seconds (v₁ v₂ : Video) (hh mm s₁ s₂ : Nat) :
    (v₁.type = v₂.type → v₁.title = v₂.title →
     durationMatch v₁.duration = some (hh, mm, s₁) →
     durationMatch v₂.duration = some (hh, mm, s₂) →
     videoStep v₁ = videoStep v₂) ∧
    (∀ v : Video, ∀ h' m' s', durationMatch v.duration = some (h', m', s') →
      videoStep v ≠ none → h' * 60 + m' > 30) ∧
    videoStep ⟨"archive", "PT30M", "Elden Ring"⟩ = none ∧
    videoStep ⟨"archive", "PT30M59S", "Elden Ring"⟩ = none ∧
    videoStep ⟨"archive", "PT3600S", "Elden Ring"⟩ = none ∧
    durationMatch "PT3600S" = some (0, 0, 3600) := by
  refine ⟨?_, ?_, by decide, by decide, by decide, by decide⟩
  · intro ht htt hd1 hd2
    have hne1 := durationMatch_some_ne_empty _ _ hd1
    have hne2 := durationMatch_some_ne_empty _ _ hd2
    unfold videoStep
    rw [ht, htt]
    by_cases harch : v₂.type = "archive"
    · simp only [harch, hne1, hne2, true_and, ne_eq, not_false_eq_true, if_true]
      rw [hd1, hd2]
    · simp [harch]
  · intro v h' m' s' hd hne
    by_contra hle
    apply hne
    unfold videoStep
    split
    · rw [hd]
      simp [hle]
    · rfl

/-- Witness for C10: a 45-minute record decides identically whether its
duration carries a seconds group or not, and an admitted record is indeed
over the threshold. -/
theorem c10_duration_gate_ignores_seconds_witness :
    videoStep ⟨"archive", "PT45M", "Elden Ring"⟩ =
      videoStep ⟨"archive", "PT45M10S", "Elden Ring"⟩ :=
  (c10_duration_gate_ignores_seconds ⟨"archive", "PT45M", "Elden Ring"⟩
      ⟨"archive", "PT45M10S", "Elden Ring"⟩ 0 45 0 10).1
    rfl rfl (by decide) (by decide)

/-- C1 counterexample: a live snapshot whose category is literally named
`"games"` is present and differs from "Just Chatting", yet the resolver's
return value reads back as the Generic marker, not as a Specific category,
and the composed message is the generic gaming sentence. -/
theorem c1_games_category_not_specific :
    getLastPlayedGame ⟨some ⟨"games", "t"⟩, some ⟨"Elden Ring", ""⟩, []⟩
      = (some "games", ⟨true, false, false⟩) ∧
    toResolved (getLastPlayedGame ⟨some ⟨"games", "t"⟩, some ⟨"Elden Ring", ""⟩, []⟩).1
      = ResolvedCategory.Generic ∧
    toResolved (getLastPlayedGame ⟨some ⟨"games", "t"⟩, some ⟨"Elden Ring", ""⟩, []⟩).1
      ≠ ResolvedCategory.Specific "games" ∧
    composeMessage "gamer123"
        (getLastPlayedGame ⟨some ⟨"games", "t"⟩, some ⟨"Elden Ring", ""⟩, []⟩).1
      = genericGamingMsg "gamer123" := by
  refine ⟨by decide, by decide, by decide, ?_⟩
  rfl

/-- C1 (amended): if the live snapshot is present with a nonempty category
other than "Just Chatting", the resolver returns that category string and
performs neither the channel-info nor the archived-broadcast lookup; the
result reads back as a Specific category whenever the name is not the
in-band Generic marker `"games"` (`index.js` lines 142–148). -/
theorem c1_live_category_shortcircuits (up : Upstream) (s : StreamSnapshot)
    (h1 : up.streamResp = some s) (h2 : s.game_name ≠ "")
    (h3 : s.game_name ≠ "Just Chatting") :
    getLastPlayedGame up = (some s.game_name, ⟨true, false, false⟩) ∧
    (s.game_name ≠ "games" →
      toResolved (getLastPlayedGame up).1 = ResolvedCategory.Specific s.game_name) := by
  have hres : getLastPlayedGame up = (some s.game_name, ⟨true, false, false⟩) := by
    unfold getLastPlayedGame
    rw [h1]
    simp [h2, h3]
  refine ⟨hres, fun h4 => ?_⟩
  rw [hres]
  simp [toResolved, h2, h4]

/-- Witness for C1 (amended) at a live "Valorant" stream. -/
theorem c1_live_category_shortcircuits_witness :
    ("Valorant" : String) ≠ "" ∧ ("Valorant" : String) ≠ "Just Chatting" ∧
    (getLastPlayedGame ⟨some ⟨"Valorant", "ranked"⟩, none, []⟩
        = (some "Valorant", ⟨true, false, false⟩) ∧
     (("Valorant" : String) ≠ "games" →
       toResolved (getLastPlayedGame ⟨some ⟨"Valorant", "ranked"⟩, none, []⟩).1
         = ResolvedCategory.Specific "Valorant")) :=
  ⟨by decide, by decide,
   c1_live_category_shortcircuits ⟨some ⟨"Valorant", "ranked"⟩, none, []⟩
     ⟨"Valorant", "ranked"⟩ rfl (by decide) (by decide)⟩

/-- C9: the Generic result is encoded in-band as the string `"games"`:
whenever the resolved category is `"games"` — in particular when a live
stream's actual category is literally named `"games"` — the composed
message is the generic gaming sentence and never the specific-game
sentence naming that category (`index.js` lines 145–148 and 222–233). -/
theorem c9_games_marker_in_band (u : String) (up : Upstream) (s : StreamSnapshot)
    (h1 : up.streamResp = some s) (h2 : s.game_name = "games") :
    (getLastPlayedGame up).1 = some "games" ∧
    composeMessage u (getLastPlayedGame up).1 = genericGamingMsg u ∧
    composeMessage u (getLastPlayedGame up).1 ≠ specificMsg u "games" := by
  have hres : (getLastPlayedGame up).1 = some "games" := by
    unfold getLastPlayedGame
    rw [h1]
    simp [h2]
  have hmsg : composeMessage u (getLastPlayedGame up).1 = genericGamingMsg u := by
    rw [hres]
    rfl
  refine ⟨hres, hmsg, ?_⟩
  rw [hmsg]
  exact genericGamingMsg_ne_specific_games u

/-- Witness for C9: a live stream in the category literally named "games". -/
theorem c9_games_marker_in_band_witness :
    ((⟨some ⟨"games", "chill"⟩, none, []⟩ : Upstream).streamResp = some ⟨"games", "chill"⟩) ∧
    ((⟨"games", "chill"⟩ : StreamSnapshot).game_name = "games") ∧
    ((getLastPlayedGame ⟨some ⟨"games", "chill"⟩, none, []⟩).1 = some "games" ∧
     composeMessage "quietgamer" (getLastPlayedGame ⟨some ⟨"games", "chill"⟩, none, []⟩).1
       = genericGamingMsg "quietgamer" ∧
     composeMessage "quietgamer" (getLastPlayedGame ⟨some ⟨"games", "chill"⟩, none, []⟩).1
       ≠ specificMsg "quietgamer" "games") :=
  ⟨rfl, rfl, c9_games_marker_in_band "quietgamer" ⟨some ⟨"games", "chill"⟩, none, []⟩
    ⟨"games", "chill"⟩ rfl rfl⟩

/-- C5 counterexample: the input `"@"` strips to the empty string, which
fails the pattern, but the handler answers with the missing-username
prompt, not the fixed validation-error message (`index.js` lines 203–210). -/
theorem c5_empty_username_different_message :
    usernameRegexOk (cleanUsername "@") = false ∧
    resolveShoutout none ⟨none, none, []⟩ "@" = missingUserMsg ∧
    missingUserMsg ≠ invalidFormatMsg := by
  refine ⟨by decide, rfl, by decide⟩

/-- C5 (amended): a username failing the pattern after trim/`@`-strip never
crashes the handler: the empty stripped result yields the fixed
missing-username prompt, and every other failing input yields the fixed
validation-error message. -/
theorem c5_invalid_username_fixed_message (raw : String) (userResp : Option User)
    (up : Upstream) (h : usernameRegexOk (cleanUsername raw) = false) :
    resolveShoutout userResp up raw =
      (if cleanUsername raw = "" then missingUserMsg else invalidFormatMsg) := by
  unfold resolveShoutout
  by_cases he : cleanUsername raw = ""
  · simp [he]
  · simp [he, h]

/-- Witness for C5 (amended): the input "ab!" fails the pattern and gets
the validation-error message. -/
theorem c5_invalid_username_fixed_message_witness :
    usernameRegexOk (cleanUsername "ab!") = false ∧
    resolveShoutout none ⟨none, none, []⟩ "ab!" =
      (if cleanUsername "ab!" = "" then missingUserMsg else invalidFormatMsg) :=
  ⟨by decide, c5_invalid_username_fixed_message "ab!" none ⟨none, none, []⟩ (by decide)⟩

/-- C2 counterexample: for the valid username "ninja", the upstream outcome
"user lookup yields nothing" (which total upstream failure degrades to)
produces the fixed not-found message, which does not contain the channel
URL (`index.js` lines 215–217). -/
theorem c2_not_found_message_lacks_url :
    usernameRegexOk (cleanUsername "ninja") = true ∧
    resolveShoutout none ⟨none, none, []⟩ "ninja" = notFoundMsg "ninja" ∧
    strContains (notFoundMsg "ninja") (channelUrl "ninja") = false := by
  refine ⟨by decide, rfl, by decide⟩

/-- C2 (amended): for every username matching the pattern after
trim/`@`-strip, the handler returns a non-empty string; it contains the
channel URL whenever the user lookup yields a user (whatever the resolver
lookups return), while an absent user — which is also what total upstream
failure degrades to — yields the fixed not-found message instead
(`index.js` lines 212–242). -/
theorem c2_valid_username_message (raw : String) (userResp : Option User)
    (up : Upstream) (hv : usernameRegexOk (cleanUsername raw) = true) :
    resolveShoutout userResp up raw ≠ "" ∧
    (∀ u, userResp = some u →
      strContains (resolveShoutout userResp up raw) (channelUrl (cleanUsername raw)) = true) ∧
    (userResp = none →
      resolveShoutout userResp up raw = notFoundMsg (cleanUsername raw)) := by
  have hne : cleanUsername raw ≠ "" := usernameRegexOk_ne_empty _ hv
  have hform : resolveShoutout userResp up raw =
      match userResp with
      | none => notFoundMsg (cleanUsername raw)
      | some _ => composeMessage (cleanUsername raw) (getLastPlayedGame up).1 := by
    unfold resolveShoutout
    simp [hne, hv]
  cases userResp with
  | none =>
    rw [hform]
    exact ⟨notFoundMsg_ne_empty _, fun u h => Option.noConfusion h, fun _ => rfl⟩
  | some usr =>
    rw [hform]
    exact ⟨composeMessage_ne_empty _ _, fun u _ => composeMessage_contains_url _ _,
      fun h => Option.noConfusion h⟩

/-- Witness for C2 (amended): "ninja" with a found user and no further
upstream data. -/
theorem c2_valid_username_message_witness :
    usernameRegexOk (cleanUsername "ninja") = true ∧
    (resolveShoutout (some ⟨"123", "ninja"⟩) ⟨none, none, []⟩ "ninja" ≠ "" ∧
     (∀ u, (some (⟨"123", "ninja"⟩ : User)) = some u →
       strContains (resolveShoutout (some ⟨"123", "ninja"⟩) ⟨none, none, []⟩ "ninja")
         (channelUrl (cleanUsername "ninja")) = true) ∧
     ((some (⟨"123", "ninja"⟩ : User)) = none →
       resolveShoutout (some ⟨"123", "ninja"⟩) ⟨none, none, []⟩ "ninja"
         = notFoundMsg (cleanUsername "ninja"))) :=
  ⟨by decide,
   c2_valid_username_message "ninja" (some ⟨"123", "ninja"⟩) ⟨none, none, []⟩ (by decide)⟩

/-- C3 counterexample: a response body that parses as JSON but carries no
`access_token`/`expires_in` does not make `getTwitchToken` fail — the call
resolves with `undefined` and overwrites the cached token (with
`undefined`) and expiry (with `NaN`), so a prior cache is not left as it
was (`index.js` lines 40–47). -/
theorem c3_parsed_malformed_body_clobbers_cache :
    getTwitchToken "id" "secret" 5 (TokenResponse.parsed none none)
        ⟨some "oldtok", some 0⟩
      = (Except.ok none, ⟨none, none⟩) ∧
    (⟨none, none⟩ : TokenCache) ≠ (⟨some "oldtok", some 0⟩ : TokenCache) :=
  ⟨rfl, by decide⟩

/-- C3 (amended): when a refresh is attempted (no valid cached token) and
the exchange fails at the transport level or its body fails to parse as
JSON, `getTwitchToken` rejects and the cached token and expiry are left
exactly as they were; a body that parses as JSON, however malformed, is
accepted and overwrites the cache. -/
theorem c3_failed_exchange_preserves_cache (cid cs : String) (now : Int)
    (c : TokenCache) (resp : TokenResponse)
    (hmiss : cacheValid c now = false)
    (hfail : resp = TokenResponse.netError ∨ resp = TokenResponse.parseError) :
    (∃ e, (getTwitchToken cid cs now resp c).1 = Except.error e) ∧
    (getTwitchToken cid cs now resp c).2 = c := by
  unfold getTwitchToken
  rw [hmiss]
  by_cases hcfg : cid = "" ∨ cs = ""
  · simp [hcfg]
  · rcases hfail with h | h <;> subst h <;> simp [hcfg]

/-- Witness for C3 (amended): a transport error with an expired cache. -/
theorem c3_failed_exchange_preserves_cache_witness :
    cacheValid ⟨none, some 0⟩ 0 = false ∧
    ((∃ e, (getTwitchToken "id" "secret" 0 TokenResponse.netError ⟨none, some 0⟩).1
        = Except.error e) ∧
     (getTwitchToken "id" "secret" 0 TokenResponse.netError ⟨none, some 0⟩).2
       = ⟨none, some 0⟩) :=
  ⟨by decide,
   c3_failed_exchange_preserves_cache "id" "secret" 0 ⟨none, some 0⟩
     TokenResponse.netError (by decide) (Or.inl rfl)⟩

/-- C4 counterexample: under the event-loop interleaving in which two
callers both run the check-and-issue segment of `getTwitchToken` before
either response arrives, two credential-exchange requests are issued, not
one — the source has no single-flight guard (`index.js` lines 14–55). -/
theorem c4_concurrent_refresh_duplicated :
    cacheValid ⟨none, some 0⟩ 0 = false ∧
    (runTokenEvents "id" "secret" 0 [TokenEvent.start, TokenEvent.start]
        ⟨⟨none, some 0⟩, 0⟩).requests = 2 ∧
    (2 : Nat) ≠ 1 := by
  refine ⟨by decide, rfl, by decide⟩

/-- C4 (amended): each concurrent `getTwitchToken` caller that observes an
expired/absent cached token issues its own credential-exchange request:
two such callers issue two requests. -/
theorem c4_no_single_flight (cid cs : String) (now : Int) (c : TokenCache) (n : Nat)
    (hc : cacheValid c now = false) (h1 : cid ≠ "") (h2 : cs ≠ "") :
    (runTokenEvents cid cs now [TokenEvent.start, TokenEvent.start] ⟨c, n⟩).requests
      = n + 2 := by
  have hcfg : ¬ (cid = "" ∨ cs = "") := by
    rintro (h | h)
    · exact h1 h
    · exact h2 h
  unfold runTokenEvents
  simp [List.foldl, stepTokenEvent, hc, hcfg]

/-- Witness for C4 (amended): a concrete interleaving of two callers over
an empty cache issues two requests. -/
theorem c4_no_single_flight_witness :
    cacheValid ⟨none, some 0⟩ 0 = false ∧
    ("id" : String) ≠ "" ∧ ("secret" : String) ≠ "" ∧
    (runTokenEvents "id" "secret" 0 [TokenEvent.start, TokenEvent.start]
        ⟨⟨none, some 0⟩, 3⟩).requests = 3 + 2 :=
  ⟨by decide, by decide, by decide,
   c4_no_single_flight "id" "secret" 0 ⟨none, some 0⟩ 3 (by decide) (by decide) (by decide)⟩

/-- C8: with a missing client identifier or secret and no valid cached
token, `getTwitchToken` throws its configuration error, every lookup's
catch converts it to absence, and the handler answers any syntactically
valid username with the not-found message — indistinguishable at the
public interface from a nonexistent user (`index.js` lines 19–21, 91–98,
214–217). -/
theorem c8_config_error_indistinguishable_from_not_found (cfg : Config) (now : Int)
    (r1 r2 r3 r4 : TokenResponse) (api : ApiData) (cache : TokenCache) (raw : String)
    (hcfg : cfg.clientId = "" ∨ cfg.clientSecret = "")
    (hcache : cacheValid cache now = false)
    (hv : usernameRegexOk (cleanUsername raw) = true) :
    handleShoutout cfg now r1 r2 r3 r4 api cache raw
      = notFoundMsg (cleanUsername raw) := by
  have hne : cleanUsername raw ≠ "" := usernameRegexOk_ne_empty _ hv
  have htok : getTwitchToken cfg.clientId cfg.clientSecret now r1 cache
      = (Except.error "Twitch credentials not configured", cache) := by
    unfold getTwitchToken
    rw [hcache]
    simp [hcfg]
  unfold handleShoutout fetchWithToken
  simp [hne, hv, htok]

/-- Witness for C8: unset client identifier, expired-at-start cache, valid
username "ninja", all upstream data present and healthy — yet the answer
is the not-found message. -/
theorem c8_config_error_indistinguishable_from_not_found_witness :
    (("" : String) = "" ∨ ("secret" : String) = "") ∧
    cacheValid ⟨none, some 0⟩ 0 = false ∧
    usernameRegexOk (cleanUsername "ninja") = true ∧
    handleShoutout ⟨"", "secret"⟩ 0 (TokenResponse.parsed (some "tok") (some 3600))
        (TokenResponse.parsed (some "tok") (some 3600))
        (TokenResponse.parsed (some "tok") (some 3600))
        (TokenResponse.parsed (some "tok") (some 3600))
        ⟨some ⟨"1", "ninja"⟩, some ⟨"Valorant", "t"⟩, some ⟨"Valorant", "t"⟩, []⟩
        ⟨none, some 0⟩ "ninja"
      = notFoundMsg (cleanUsername "ninja") :=
  ⟨Or.inl rfl, by decide, by decide,
   c8_config_error_indistinguishable_from_not_found ⟨"", "secret"⟩ 0
     (TokenResponse.parsed (some "tok") (some 3600))
     (TokenResponse.parsed (some "tok") (some 3600))
     (TokenResponse.parsed (some "tok") (some 3600))
     (TokenResponse.parsed (some "tok") (some 3600))
     ⟨some ⟨"1", "ninja"⟩, some ⟨"Valorant", "t"⟩, some ⟨"Valorant", "t"⟩, []⟩
     ⟨none, some 0⟩ "ninja" (Or.inl rfl) (by decide) (by decide)⟩

end Shoutout
